import Mathlib

/-!
Verification of the naoqi_dcm_driver robot bridge (`src/robot.cpp`).

The C++ class `Robot` is embedded shallowly:
* numeric joint data (C++ `double`/`float`) is modelled by `ℚ`;
* the member state of the `Robot` object is the structure `RobotState`;
* calls into the NAOqi backend (ALMotion / DCM / ALMemory) and into ROS
  publishers are modelled as an emitted trace of `Event`s;
* answers coming back from the backend (wake state, stiffness-interpolation
  acceptance, sensor readings, the commands the controller manager writes
  through the registered handles) are supplied by oracle structures;
* a C++ out-of-bounds iterator dereference (undefined behavior) is modelled
  by an `Option` result being `none`.
-/

/-- Observable effects: calls the driver makes into the NAOqi backend and the
ROS publication layer, in program order. -/
inductive Event
  | wakeUp
  | manageConcurrence
  | initWrappers (joints : List String)
  | subscribeTopics
  | stiffnessInterpolation (groups : List String) (lvl dur : ℚ)
  | setStiffnessArms (lvl dur : ℚ)
  | rest
  | rosShutdown
  | publishStiffness (s : ℚ)
  | readJointsEv (sensors : List ℚ)
  | diagPublish
  | managerUpdate
  | dcmWriteJoints (cmds : List ℚ)
  | motionWriteJoints (cmds : List ℚ)
  | publishJointStates
  | moveTo (x y theta : ℚ)
  | sleepSec (t : ℚ)
  deriving DecidableEq, Repr

/-- The member state of the C++ `Robot` object that the verified routines read
and write.  `motion_present` models whether the `motion_` shared pointer is
non-null (it is null until `connect` constructs the Motion wrapper). -/
structure RobotState where
  is_connected : Bool
  stiffness_data : ℚ
  motion_present : Bool
  use_dcm : Bool
  motor_groups : List String
  body_type : String
  joint_precision : ℚ
  joint_angles : List ℚ
  joint_velocities : List ℚ
  joint_efforts : List ℚ
  joint_commands : List ℚ
  deriving DecidableEq, Repr

/-- The `Robot` constructor's relevant member initializers
(`is_connected_(false)`, `joint_precision_(0.1)`, `use_dcm_(false)`,
`body_type_("")`; the `std_msgs::Float32 stiffness_` member is
value-initialized to 0, and the motion wrapper pointer is null). -/
def initialRobotState : RobotState :=
  { is_connected := false
    stiffness_data := 0
    motion_present := false
    use_dcm := false
    motor_groups := []
    body_type := ""
    joint_precision := 1/10
    joint_angles := []
    joint_velocities := []
    joint_efforts := []
    joint_commands := [] }

/-! ## Robot::writeJoints (src/robot.cpp:391-416) -/

/-- The change-detection loop of `Robot::writeJoints`: walk `joint_commands_`
and `joint_angles_` in lockstep and stop at the first joint whose
`fabs(*it_command - *it_now)` exceeds `joint_precision_` (the C++ `break`).
The catch-all case (commands left but angles exhausted) is unreachable in the
program because the two arrays are always sized together
(`initializeControllers`). -/
def writeChanged (precision : ℚ) : List ℚ → List ℚ → Bool
  | c :: cs, a :: as => if |c - a| > precision then true else writeChanged precision cs as
  | _, _ => false

/-- `Robot::writeJoints`: if some joint changed beyond `joint_precision_`,
push the whole `joint_commands_` vector through the DCM wrapper when
`use_dcm_` is set, otherwise through the Motion wrapper; else do nothing.
The result is the backend write issued this cycle, if any. -/
def writeJoints (st : RobotState) : Option Event :=
  if writeChanged st.joint_precision st.joint_commands st.joint_angles then
    some (if st.use_dcm then Event.dcmWriteJoints st.joint_commands
          else Event.motionWriteJoints st.joint_commands)
  else none

/-! ## Robot::ignoreMimicJoints (src/robot.cpp:418-430) -/

/-- `std::string::find(pat) != npos`: `pat` occurs contiguously in `s`. -/
def containsSub (pat : List Char) : List Char → Bool
  | [] => pat.isEmpty
  | c :: cs => pat.isPrefixOf (c :: cs) || containsSub pat cs

/-- The erase condition of `Robot::ignoreMimicJoints`: the name contains
"Wheel", or (C++ `&&` binding tighter than `||`) it is one of the four hand /
wrist joints and the body type is "H21". -/
def mimicMatch (body_type : String) (s : String) : Bool :=
  containsSub "Wheel".toList s.toList
    || ((s == "RHand" || s == "LHand" || s == "RWristYaw" || s == "LWristYaw")
        && body_type == "H21")

/-- The iterator loop of `Robot::ignoreMimicJoints`, with the vector iterator
rendered as an index.  On a match the element is erased and the iterator is
decremented, so the `++it` of the loop brings it back to the same index (for
the first element the decrement goes one before `begin()` and the increment
returns to index 0, which is what the compiled pointer arithmetic does);
otherwise the index advances. -/
def eraseLoop (bt : String) (l : List String) (i : Nat) : List String :=
  if h : i < l.length then
    if mimicMatch bt (l.get ⟨i, h⟩) then eraseLoop bt (l.eraseIdx i) i
    else eraseLoop bt l (i + 1)
  else l
termination_by l.length - i
decreasing_by
  · simp only [List.length_eraseIdx, h, if_pos]
    omega
  · omega

/-- `Robot::ignoreMimicJoints`: run the erase loop from the beginning. -/
def ignoreMimicJoints (bt : String) (l : List String) : List String :=
  eraseLoop bt l 0

/-! ## Robot::setStiffness (src/robot.cpp:433-441) -/

/-- `Robot::setStiffness`: first assigns `stiffness_.data = stiffness`, then
asks the backend for a stiffness interpolation on `motor_groups_` over 1.0 s;
`backend_ok` is the backend's answer, which becomes the return value. -/
def setStiffness (st : RobotState) (lvl : ℚ) (backend_ok : Bool) :
    Bool × RobotState × List Event :=
  (backend_ok,
   { st with stiffness_data := lvl },
   [Event.stiffnessInterpolation st.motor_groups lvl 1])

/-! ## Robot::stopService (src/robot.cpp:52-78) -/

/-- `Robot::stopService`: when the motion wrapper exists, release the DCM
concurrency guard on the arms (only when `use_dcm_`), go to rest when the
whole body is the single controlled motor group, and zero the body stiffness
(whose backend answer, `stiff_backend_ok`, the source discards); then
unconditionally clear `is_connected_` and shut the node down. -/
def stopService (st : RobotState) (stiff_backend_ok : Bool) :
    RobotState × List Event :=
  if st.motion_present then
    let evArms := if st.use_dcm then [Event.setStiffnessArms 0 1] else []
    let evRest := if st.motor_groups = ["Body"] then [Event.rest] else []
    let r := setStiffness st 0 stiff_backend_ok
    ({ r.2.1 with is_connected := false },
     evArms ++ evRest ++ r.2.2 ++ [Event.rosShutdown])
  else
    ({ st with is_connected := false }, [Event.rosShutdown])

/-! ## Robot::commandVelocity (src/robot.cpp:308-320) -/

/-- `Robot::commandVelocity`: around the high-level `moveTo`, and only when
`use_dcm_` is set, drop the arm stiffness to 0 before and raise it back to 1
after (with a 1 s sleep between the move and the raise). -/
def commandVelocity (use_dcm : Bool) (x y theta : ℚ) : List Event :=
  (if use_dcm then [Event.setStiffnessArms 0 1] else [])
    ++ [Event.moveTo x y theta, Event.sleepSec 1]
    ++ (if use_dcm then [Event.setStiffnessArms 1 1] else [])

/-- Observation filter: keep only the arm-stiffness and motion operations of a
trace. -/
def isArmsOrMotion : Event → Bool
  | Event.setStiffnessArms _ _ => true
  | Event.moveTo _ _ _ => true
  | _ => false

/-! ## Robot::initializeControllers (src/robot.cpp:80-118) -/

/-- The registration loop of `Robot::initializeControllers`: for index `i`
running over the joint names it registers a state handle and a position
handle binding the name at `i` to buffer slot `i` (the C++ handles hold
pointers `&joint_angles_[i]`, `&joint_velocities_[i]`, `&joint_efforts_[i]`,
`&joint_commands_[i]`; a pointer is rendered as the slot index). -/
def registerHandles : List String → Nat → List (String × Nat)
  | [], _ => []
  | x :: xs, i => (x, i) :: registerHandles xs (i + 1)

/-- `Robot::initializeControllers`: resize the four joint buffers to the name
count (this happens before the `try` block, so it happens even when
registration later fails), then register the handles; `hw_ok` models whether
the registration block throws `ros::Exception` (caught, returning false).
Result: (return value, updated state, registered handle bindings). -/
def initControllers (st : RobotState) (names : List String) (hw_ok : Bool) :
    Bool × RobotState × List (String × Nat) :=
  let n := names.length
  let st := { st with
    joint_angles := List.replicate n 0
    joint_velocities := List.replicate n 0
    joint_efforts := List.replicate n 0
    joint_commands := List.replicate n 0 }
  if hw_ok then (true, st, registerHandles names 0) else (false, st, [])

/-! ## Robot::connect (src/robot.cpp:122-207) -/

/-- Oracle for the backend answers consumed during `Robot::connect`. -/
structure ConnectOracle where
  /-- `motion_->robotIsWakeUp()` -/
  wake_ok : Bool
  /-- `motion_->getBodyNamesFromGroup(motor_groups_)` -/
  body_names : List String
  /-- answer of `stiffnessInterpolation` when raising stiffness to 1.0 -/
  stiff_ok : Bool
  /-- `controller_manager::ControllerManager` construction does not throw -/
  cm_ok : Bool
  /-- hardware-interface registration does not throw -/
  hw_ok : Bool
  deriving DecidableEq, Repr

/-- `Robot::connect`: clears `is_connected_`, constructs the wrappers (the
motion wrapper exists from here on), wakes the robot when the controlled
group warrants it, aborts through `stopService` when the robot is not awake,
resolves and filters the joint names, sets `is_connected_ = true`, subscribes
(which assigns `stiffness_.data = 1.0f`), raises stiffness, constructs the
controller manager and registers the hardware interfaces — returning false on
each of the last three failures without touching `is_connected_` again.
Result: (return value, final state, emitted backend trace). -/
def connect (st0 : RobotState) (o : ConnectOracle) : Bool × RobotState × List Event :=
  let st := { st0 with is_connected := false, motion_present := true }
  let wakeEvs :=
    if st.motor_groups.length = 1 then
      if st.motor_groups = ["Body"] then [Event.wakeUp] else []
    else if !st.use_dcm then [Event.wakeUp] else []
  if !o.wake_ok then
    let r := stopService st true
    (false, r.1, wakeEvs ++ r.2)
  else
    let evConc := if st.use_dcm then [Event.manageConcurrence] else []
    let joints := ignoreMimicJoints st.body_type o.body_names
    let st := { st with is_connected := true }
    let st := { st with stiffness_data := 1 }   -- subscribe(): stiffness_.data = 1.0f
    let preEvs := wakeEvs ++ evConc
      ++ [Event.initWrappers joints, Event.subscribeTopics]
    let r := setStiffness st 1 o.stiff_ok
    let evs := preEvs ++ r.2.2
    if !r.1 then (false, r.2.1, evs)
    else if !o.cm_ok then (false, r.2.1, evs)
    else
      let ic := initControllers r.2.1 joints o.hw_ok
      if !ic.1 then (false, ic.2.1, evs)
      else (true, ic.2.1, evs)

/-! ## Robot::readJoints (src/robot.cpp:364-379) -/

/-- `Robot::readJoints`: fetch the batched sensor angles and copy value `i`
into both `joint_angles_[i]` and `joint_commands_[i]` for every index of
`joint_commands_` (the loop bound is `it_command < joint_commands_.end()`;
the sensor and angle iterators are advanced unchecked, so a shorter sensor
vector — or a shorter angle buffer — makes the loop dereference an iterator
past the end: undefined behavior, rendered as `none`.  The source contains no
length check). -/
def readJoints (st : RobotState) (sensors : List ℚ) : Option RobotState :=
  let n := st.joint_commands.length
  if n ≤ sensors.length ∧ n ≤ st.joint_angles.length then
    some { st with
      joint_angles := sensors.take n ++ st.joint_angles.drop n
      joint_commands := sensors.take n }
  else none

/-! ## Robot::controllerLoop (src/robot.cpp:265-301) -/

/-- Per-iteration outside inputs of the control loop. -/
structure LoopOracle where
  /-- `memory_->getListData()` -/
  sensors : List ℚ
  /-- `diagnostics_->publish()` -/
  diag_ok : Bool
  /-- backend answer to the stiffness interpolation issued by the
  `stopService` call of the diagnostics branch (discarded by the source) -/
  stop_stiff_ok : Bool
  /-- `manager_->update(...)` throws `ros::Exception` -/
  update_throws : Bool
  /-- the command vector the controller manager leaves in `joint_commands_`
  through the registered position handles -/
  commands : List ℚ
  deriving DecidableEq, Repr

/-- One body of the `while` loop of `Robot::controllerLoop`, entered after the
`is_connected_` check passed: publish the stiffness, read the joints, publish
the diagnostics (calling `stopService` on a not-ok result), run the controller
manager update (on a throw: log and return from the loop), write the joints,
publish the joint state.  Result: `none` on undefined behavior inside
`readJoints`, otherwise (state, events, whether the loop continues). -/
def loopIteration (st : RobotState) (o : LoopOracle) :
    Option (RobotState × List Event × Bool) :=
  match readJoints st o.sensors with
  | none => none
  | some st1 =>
    let pre := [Event.publishStiffness st.stiffness_data, Event.readJointsEv o.sensors]
    let diag :=
      if o.diag_ok then (st1, [Event.diagPublish])
      else
        let r := stopService st1 o.stop_stiff_ok
        (r.1, Event.diagPublish :: r.2)
    if o.update_throws then
      some (diag.1, pre ++ diag.2 ++ [Event.managerUpdate], false)
    else
      let st3 := { diag.1 with joint_commands := o.commands }
      some (st3,
        pre ++ diag.2 ++ [Event.managerUpdate] ++ (writeJoints st3).toList
          ++ [Event.publishJointStates],
        true)

/-- `Robot::controllerLoop`: iterate while `ros::ok()` (the oracle list is the
schedule of iterations ROS still allows; an empty list is `ros::ok()` turning
false), breaking out first thing in an iteration that observes
`is_connected_ == false`. -/
def controllerLoop (st : RobotState) : List LoopOracle → Option (RobotState × List Event)
  | [] => some (st, [])
  | o :: rest =>
    if st.is_connected then
      match loopIteration st o with
      | none => none
      | some (st1, evs, cont) =>
        if cont then
          match controllerLoop st1 rest with
          | none => none
          | some r => some (r.1, evs ++ r.2)
        else some (st1, evs)
    else some (st, [])

/-! ## Helper lemmas -/

theorem writeChanged_eq_any (p : ℚ) (cs as : List ℚ) :
    writeChanged p cs as = (cs.zip as).any (fun q => decide (|q.1 - q.2| > p)) := by
  induction cs generalizing as with
  | nil => simp [writeChanged]
  | cons c cs ih =>
    cases as with
    | nil => simp [writeChanged]
    | cons a as =>
      simp only [writeChanged, List.zip_cons_cons, List.any_cons, ih]
      by_cases h : |c - a| > p <;> simp [h]

theorem writeChanged_iff_zip (p : ℚ) (cs as : List ℚ) :
    writeChanged p cs as = true ↔ ∃ q ∈ cs.zip as, |q.1 - q.2| > p := by
  rw [writeChanged_eq_any, List.any_eq_true]
  simp

theorem mem_zip_iff_index (cs as : List ℚ) (q : ℚ × ℚ) :
    q ∈ cs.zip as ↔
      ∃ i, ∃ hc : i < cs.length, ∃ ha : i < as.length,
        cs.get ⟨i, hc⟩ = q.1 ∧ as.get ⟨i, ha⟩ = q.2 := by
  constructor
  · intro hmem
    obtain ⟨i, hi, hq⟩ := List.mem_iff_getElem.mp hmem
    have hc : i < cs.length := lt_of_lt_of_le hi (by simp [List.length_zip])
    have ha : i < as.length := lt_of_lt_of_le hi (by simp [List.length_zip])
    refine ⟨i, hc, ha, ?_, ?_⟩
    · rw [← hq, List.getElem_zip]
      simp [List.get_eq_getElem]
    · rw [← hq, List.getElem_zip]
      simp [List.get_eq_getElem]
  · rintro ⟨i, hc, ha, h1, h2⟩
    have hi : i < (cs.zip as).length := by
      simp only [List.length_zip]
      omega
    have hget : (cs.zip as).get ⟨i, hi⟩ = q := by
      rw [List.get_eq_getElem, List.getElem_zip]
      rw [List.get_eq_getElem] at h1 h2
      rw [h1, h2]
    exact hget ▸ List.get_mem _ _ _

/-! ## C1 -/

/-- C1: during a cycle, `writeJoints` issues a backend write (through the DCM
path when `use_dcm_` is set, otherwise through the motion path) iff some
joint `i` has `|command_i - measured_i| > joint_precision_`; when it writes it
pushes the whole command vector; when no diff exceeds the threshold (the
all-zero-diff case included) nothing is sent and that is not an error. -/
theorem writeJoints_change_detection (st : RobotState)
    (_h : st.joint_angles.length = st.joint_commands.length) :
    ((writeJoints st).isSome = true ↔
      ∃ i, ∃ hc : i < st.joint_commands.length, ∃ ha : i < st.joint_angles.length,
        |st.joint_commands.get ⟨i, hc⟩ - st.joint_angles.get ⟨i, ha⟩|
          > st.joint_precision)
    ∧ (∀ ev, writeJoints st = some ev →
        ev = (if st.use_dcm then Event.dcmWriteJoints st.joint_commands
              else Event.motionWriteJoints st.joint_commands))
    ∧ ((¬ ∃ i, ∃ hc : i < st.joint_commands.length,
          ∃ ha : i < st.joint_angles.length,
          |st.joint_commands.get ⟨i, hc⟩ - st.joint_angles.get ⟨i, ha⟩|
            > st.joint_precision) →
        writeJoints st = none) := by
  have hiff : (writeJoints st).isSome = true ↔
      ∃ i, ∃ hc : i < st.joint_commands.length, ∃ ha : i < st.joint_angles.length,
        |st.joint_commands.get ⟨i, hc⟩ - st.joint_angles.get ⟨i, ha⟩|
          > st.joint_precision := by
    unfold writeJoints
    by_cases hw : writeChanged st.joint_precision st.joint_commands st.joint_angles
    · simp only [hw, if_pos, Option.isSome_some, true_iff]
      obtain ⟨q, hq, hp⟩ := (writeChanged_iff_zip _ _ _).mp hw
      obtain ⟨i, hc, ha, h1, h2⟩ := (mem_zip_iff_index _ _ _).mp hq
      exact ⟨i, hc, ha, by rw [h1, h2]; exact hp⟩
    · simp only [hw, if_neg, Bool.false_eq_true, Option.isSome_none]
      constructor
      · intro hfalse
        exact absurd hfalse (by simp)
      · rintro ⟨i, hc, ha, hp⟩
        exact absurd ((writeChanged_iff_zip _ _ _).mpr
          ⟨(st.joint_commands.get ⟨i, hc⟩, st.joint_angles.get ⟨i, ha⟩),
            (mem_zip_iff_index _ _ _).mpr ⟨i, hc, ha, rfl, rfl⟩, hp⟩) (by simp [hw])
  refine ⟨hiff, ?_, ?_⟩
  · intro ev hev
    unfold writeJoints at hev
    by_cases hw : writeChanged st.joint_precision st.joint_commands st.joint_angles
    · simp only [hw, if_pos] at hev
      exact (Option.some_inj.mp hev).symm
    · simp [hw] at hev
  · intro hno
    have : ¬ (writeJoints st).isSome = true := fun hs => hno (hiff.mp hs)
    cases hv : writeJoints st with
    | none => rfl
    | some ev => exact absurd (by simp [hv]) this

/-- Example for C1: the spec's own numbers — precision 0.1, commands
[0.05, 0.2], measured [0, 0]. -/
def exWriteState : RobotState :=
  { initialRobotState with
    joint_angles := [0, 0]
    joint_commands := [1/20, 1/5]
    joint_precision := 1/10 }

theorem exWriteState_diff_exceeds :
    |exWriteState.joint_commands.get ⟨1, by decide⟩
        - exWriteState.joint_angles.get ⟨1, by decide⟩|
      > exWriteState.joint_precision := by
  have habs : |(1/5 : ℚ)| = 1/5 := abs_of_pos (by norm_num)
  norm_num [exWriteState, initialRobotState, habs]

theorem writeJoints_change_detection_witness :
    (writeJoints exWriteState).isSome = true :=
  (writeJoints_change_detection exWriteState rfl).1.mpr
    ⟨1, by decide, by decide, exWriteState_diff_exceeds⟩

/-! ## C2 -/

theorem isPrefixOf_eq_append (p s : List Char) :
    p.isPrefixOf s = true ↔ ∃ r, s = p ++ r := by
  induction p generalizing s with
  | nil => simp [List.isPrefixOf]
  | cons a ps ih =>
    cases s with
    | nil => simp [List.isPrefixOf]
    | cons b bs =>
      simp only [List.isPrefixOf, Bool.and_eq_true, beq_iff_eq, ih,
        List.cons_append, List.cons.injEq]
      constructor
      · rintro ⟨rfl, r, rfl⟩
        exact ⟨r, rfl, rfl⟩
      · rintro ⟨r, rfl, rfl⟩
        exact ⟨rfl, r, rfl⟩

theorem containsSub_iff (pat s : List Char) :
    containsSub pat s = true ↔ ∃ l r, s = l ++ pat ++ r := by
  induction s with
  | nil =>
    simp only [containsSub, List.isEmpty_iff]
    constructor
    · rintro rfl
      exact ⟨[], [], rfl⟩
    · rintro ⟨l, r, h⟩
      rcases List.append_eq_nil.mp (List.append_eq_nil.mp h.symm).1 with ⟨-, h2⟩
      exact h2
  | cons c cs ih =>
    simp only [containsSub, Bool.or_eq_true, isPrefixOf_eq_append, ih]
    constructor
    · rintro (⟨r, hr⟩ | ⟨l, r, hr⟩)
      · exact ⟨[], r, by simpa using hr⟩
      · exact ⟨c :: l, r, by simp [hr]⟩
    · rintro ⟨l, r, hr⟩
      cases l with
      | nil =>
        exact Or.inl ⟨r, by simpa using hr⟩
      | cons x l =>
        simp only [List.cons_append, List.append_assoc, List.cons.injEq] at hr
        exact Or.inr ⟨l, r, by simp [hr.2]⟩

theorem eraseLoop_eq_filter (bt : String) :
    ∀ (n : Nat) (l : List String) (i : Nat), l.length - i ≤ n →
      eraseLoop bt l i = l.take i ++ (l.drop i).filter (fun s => !mimicMatch bt s)
  | n, l, i, hn => by
    by_cases hi : i < l.length
    · rw [eraseLoop]
      simp only [hi, dif_pos]
      by_cases hm : mimicMatch bt (l.get ⟨i, hi⟩)
      · rw [if_pos hm]
        cases n with
        | zero => omega
        | succ n =>
          have hrec := eraseLoop_eq_filter bt n (l.eraseIdx i) i
            (by rw [List.length_eraseIdx_of_lt hi]; omega)
          rw [hrec, List.eraseIdx_eq_take_drop_succ,
            List.take_left' (by simp [List.length_take]; omega),
            List.drop_left' (by simp [List.length_take]; omega)]
          rw [List.drop_eq_getElem_cons hi, List.filter_cons]
          simp only [List.get_eq_getElem] at hm
          simp [hm]
      · rw [if_neg hm]
        cases n with
        | zero => omega
        | succ n =>
          have hrec := eraseLoop_eq_filter bt n l (i + 1) (by omega)
          have htake : l.take (i + 1) = l.take i ++ [l[i]] := by
            rw [List.take_succ, List.getElem?_eq_getElem hi]
            rfl
          rw [hrec, htake, List.append_assoc, List.singleton_append,
            List.drop_eq_getElem_cons hi, List.filter_cons]
          have hm' : mimicMatch bt l[i] = false := by
            simp only [List.get_eq_getElem] at hm
            simpa using hm
          rw [hm']
          simp
    · rw [eraseLoop]
      simp only [hi, dif_neg, not_false_iff]
      rw [List.take_of_length_le (by omega), List.drop_eq_nil_of_le (by omega)]
      simp

theorem ignoreMimicJoints_eq_filter (bt : String) (l : List String) :
    ignoreMimicJoints bt l = l.filter (fun s => !mimicMatch bt s) := by
  simpa [ignoreMimicJoints] using eraseLoop_eq_filter bt l.length l 0 (by omega)

/-- C2: after `ignoreMimicJoints` runs, every name containing "Wheel" is
absent; when the body type is "H21" the names "RHand", "LHand", "RWristYaw",
"LWristYaw" are absent too; every other name is still present and the
survivors keep their original relative order — the result is exactly the
order-preserving filter of the input, which also covers adjacent matches and
a match at the first element. -/
theorem ignoreMimicJoints_spec (bt : String) (l : List String) :
    ignoreMimicJoints bt l = l.filter (fun s => !mimicMatch bt s)
    ∧ (∀ s ∈ ignoreMimicJoints bt l, ¬ ∃ u v, s.toList = u ++ "Wheel".toList ++ v)
    ∧ (bt = "H21" → ∀ s ∈ ignoreMimicJoints bt l,
        s ≠ "RHand" ∧ s ≠ "LHand" ∧ s ≠ "RWristYaw" ∧ s ≠ "LWristYaw")
    ∧ (∀ s ∈ l, mimicMatch bt s = false → s ∈ ignoreMimicJoints bt l)
    ∧ (ignoreMimicJoints bt l).Sublist l := by
  refine ⟨ignoreMimicJoints_eq_filter bt l, ?_, ?_, ?_, ?_⟩
  · intro s hs hex
    rw [ignoreMimicJoints_eq_filter] at hs
    have hflt := (List.mem_filter.mp hs).2
    obtain ⟨u, v, huv⟩ := hex
    have hcs : containsSub "Wheel".toList s.toList = true :=
      (containsSub_iff _ _).mpr ⟨u, v, huv⟩
    have hmm : mimicMatch bt s = true := by
      simp only [mimicMatch, Bool.or_eq_true]
      exact Or.inl hcs
    have hflt' : (!mimicMatch bt s) = true := hflt
    rw [hmm] at hflt'
    exact absurd hflt' (by decide)
  · intro hbt s hs
    rw [ignoreMimicJoints_eq_filter] at hs
    have hm := (List.mem_filter.mp hs).2
    subst hbt
    refine ⟨?_, ?_, ?_, ?_⟩ <;> rintro rfl <;> exact absurd hm (by decide)
  · intro s hs hm
    rw [ignoreMimicJoints_eq_filter]
    exact List.mem_filter.mpr ⟨hs, by simp [hm]⟩
  · rw [ignoreMimicJoints_eq_filter]
    exact List.filter_sublist l

/-- Example for C2: a name list whose first element matches and with two
adjacent matches. -/
def exJointNames : List String :=
  ["WheelFL", "WheelFR", "RHand", "HeadYaw", "LWristYaw"]

theorem ignoreMimicJoints_spec_witness :
    "HeadYaw" ∈ ignoreMimicJoints "H21" exJointNames :=
  (ignoreMimicJoints_spec "H21" exJointNames).2.2.2.1 "HeadYaw" (by decide)
    (by decide)

/-! ## C3 -/

/-- The state `connect` is entered from in the counterexample run: the
freshly constructed driver with the default motor groups loaded by
`loadParams`. -/
def connectStartState : RobotState :=
  { initialRobotState with motor_groups := ["LArm", "RArm"] }

/-- Backend answers for the counterexample run: the robot is awake but the
backend rejects the stiffness raise. -/
def connectFailOracle : ConnectOracle :=
  { wake_ok := true
    body_names := ["LShoulderPitch", "RShoulderPitch"]
    stiff_ok := false
    cm_ok := true
    hw_ok := true }

/-- C3 counterexample: on a stiffness-raise failure `connect` returns false
yet `isConnected()` reports true afterwards — the claim that every
connect-time fatal failure leaves the state Disconnected is false on the
code (`is_connected_ = true` at src/robot.cpp:182 precedes the stiffness
raise at line 188, and the failure paths after it never clear the flag). -/
theorem connect_stiff_fail_leaves_connected :
    (connect connectStartState connectFailOracle).1 = false
    ∧ (connect connectStartState connectFailOracle).2.1.is_connected = true := by
  constructor <;> rfl

/-- C3 amended: `connect` returns false on every connect-time fatal failure,
and on the wake-check failure it leaves the state Disconnected (through
`stopService`); but on a stiffness-raise, controller-manager-construction or
hardware-interface-registration failure the connected flag — set true just
before the stiffness raise — remains true, so partial state is retained. -/
theorem connect_failure_states (st : RobotState) (o : ConnectOracle) :
    (o.wake_ok = false →
      (connect st o).1 = false ∧ (connect st o).2.1.is_connected = false)
    ∧ (o.wake_ok = true → o.stiff_ok = false →
      (connect st o).1 = false ∧ (connect st o).2.1.is_connected = true)
    ∧ (o.wake_ok = true → o.stiff_ok = true → o.cm_ok = false →
      (connect st o).1 = false ∧ (connect st o).2.1.is_connected = true)
    ∧ (o.wake_ok = true → o.stiff_ok = true → o.cm_ok = true → o.hw_ok = false →
      (connect st o).1 = false ∧ (connect st o).2.1.is_connected = true) := by
  refine ⟨?_, ?_, ?_, ?_⟩
  · intro hw
    simp [connect, hw, stopService, setStiffness]
  · intro hw hs
    simp [connect, hw, hs, setStiffness]
  · intro hw hs hc
    simp [connect, hw, hs, hc, setStiffness]
  · intro hw hs hc hh
    simp [connect, hw, hs, hc, hh, setStiffness, initControllers]

theorem connect_failure_states_witness :
    (connect connectStartState
        { connectFailOracle with wake_ok := false }).1 = false
    ∧ (connect connectStartState
        { connectFailOracle with wake_ok := false }).2.1.is_connected = false :=
  (connect_failure_states connectStartState
    { connectFailOracle with wake_ok := false }).1 rfl

/-! ## C4 -/

/-- C4: calling `stopService` twice produces the same end state as calling it
once — the connected flag is false and the published stiffness is 0 — and the
second call is an ordinary total call (no exception); this holds from any
state, including after partial initialization.  The hypothesis records the
construction order of the source: `stiffness_.data` is value-initialized to 0
and is only ever assigned in `subscribe` and `setStiffness`, both of which run
after the motion wrapper exists, so a state without the motion wrapper still
has stiffness 0. -/
theorem stopService_idempotent (st : RobotState) (a b : Bool)
    (hmotion0 : st.motion_present = false → st.stiffness_data = 0) :
    (stopService (stopService st a).1 b).1 = (stopService st a).1
    ∧ (stopService st a).1.is_connected = false
    ∧ (stopService st a).1.stiffness_data = 0 := by
  rcases st with ⟨ic, sd, mp, ud, mg, bt, jp, ja, jv, je, jc⟩
  cases mp
  · simp only [Bool.false_eq_true, false_implies, forall_const] at hmotion0
    subst hmotion0
    simp [stopService, setStiffness]
  · simp [stopService, setStiffness]

/-- Example state for C4: a fully connected driver. -/
def exConnectedState : RobotState :=
  { initialRobotState with
    is_connected := true
    motion_present := true
    stiffness_data := 1
    motor_groups := ["Body"]
    use_dcm := true }

theorem stopService_idempotent_witness :
    (stopService (stopService exConnectedState true).1 false).1
      = (stopService exConnectedState true).1
    ∧ (stopService exConnectedState true).1.is_connected = false
    ∧ (stopService exConnectedState true).1.stiffness_data = 0 :=
  stopService_idempotent exConnectedState true false (by intro h; cases h)

/-! ## C5 -/

/-- C5: when the low-level DCM path is active, the arm-stiffness and motion
operations a `commandVelocity` callback performs are exactly: arm stiffness
set to 0.0, then the motion command, then arm stiffness set to 1.0, in that
order, synchronously within the one callback; when the low-level path is not
active, no arm-stiffness change surrounds the motion command. -/
theorem commandVelocity_arm_guard (x y theta : ℚ) :
    (commandVelocity true x y theta).filter isArmsOrMotion
      = [Event.setStiffnessArms 0 1, Event.moveTo x y theta,
         Event.setStiffnessArms 1 1]
    ∧ (commandVelocity false x y theta).filter isArmsOrMotion
      = [Event.moveTo x y theta] := by
  constructor <;> simp [commandVelocity, isArmsOrMotion]

/-! ## C6 -/

/-- A two-joint driver state for the mismatched-read run. -/
def exTwoJointState : RobotState :=
  { initialRobotState with
    joint_angles := [0, 0]
    joint_commands := [0, 0] }

/-- C6 (code bug): when the batched backend read returns fewer values than the
joint buffers hold (here 1 value for 2 joints), `readJoints` dereferences the
sensor iterator past the end — undefined behavior, modelled as `none` — with
no assert and no error branch in the source (src/robot.cpp:364-379), instead
of failing loudly as the claim requires.  With matching lengths every access
of the copy loop is in bounds and the copy succeeds. -/
theorem readJoints_short_read :
    readJoints exTwoJointState [1/2] = none
    ∧ (readJoints exTwoJointState [1/2, 1/2]).isSome = true := by
  constructor <;> rfl

/-! ## C7 and C10 -/

theorem stopService_disconnects (st : RobotState) (a : Bool) :
    (stopService st a).1.is_connected = false := by
  by_cases h : st.motion_present <;> simp [stopService, setStiffness, h]

theorem loop_exits_disconnected (st : RobotState) (os : List LoopOracle)
    (h : st.is_connected = false) :
    controllerLoop st os = some (st, []) := by
  cases os with
  | nil => rfl
  | cons o rest => simp [controllerLoop, h]

/-- C7: once the connected flag is observed false at the top of an iteration,
the control loop performs no further backend reads or writes — it emits no
events at all — and returns control to the caller unchanged, whatever
schedule of iterations ROS would still allow. -/
theorem controllerLoop_disconnected_no_io (st : RobotState)
    (os : List LoopOracle) (h : st.is_connected = false) :
    controllerLoop st os = some (st, []) :=
  loop_exits_disconnected st os h

/-- Example loop oracle: nominal iteration with no joints. -/
def exLoopOracle : LoopOracle :=
  { sensors := []
    diag_ok := true
    stop_stiff_ok := true
    update_throws := false
    commands := [] }

theorem controllerLoop_disconnected_no_io_witness :
    controllerLoop initialRobotState [exLoopOracle, exLoopOracle]
      = some (initialRobotState, []) :=
  controllerLoop_disconnected_no_io initialRobotState
    [exLoopOracle, exLoopOracle] rfl

/-- C10: when the diagnostics publish reports not-ok in an iteration,
`stopService` runs (its events appear in the trace and the resulting state is
disconnected), but the same iteration still performs the controller-manager
update, `writeJoints` (a potential backend write) and the joint-state
publish; the loop only exits at the connected-flag check of the next
iteration — the remaining schedule `rest` contributes nothing. -/
theorem controllerLoop_diag_failure (st st1 : RobotState) (o : LoopOracle)
    (rest : List LoopOracle) (hc : st.is_connected = true)
    (hd : o.diag_ok = false) (hu : o.update_throws = false)
    (hr : readJoints st o.sensors = some st1) :
    controllerLoop st (o :: rest) =
      some ({ (stopService st1 o.stop_stiff_ok).1 with joint_commands := o.commands },
        [Event.publishStiffness st.stiffness_data, Event.readJointsEv o.sensors,
         Event.diagPublish]
        ++ (stopService st1 o.stop_stiff_ok).2
        ++ [Event.managerUpdate]
        ++ (writeJoints { (stopService st1 o.stop_stiff_ok).1 with
              joint_commands := o.commands }).toList
        ++ [Event.publishJointStates]) := by
  have hnext : ({ (stopService st1 o.stop_stiff_ok).1 with
      joint_commands := o.commands } : RobotState).is_connected = false := by
    simpa using stopService_disconnects st1 o.stop_stiff_ok
  simp [controllerLoop, loopIteration, hc, hd, hu, hr,
    loop_exits_disconnected _ rest hnext]

/-- Example inputs for the C10 witness: one connected joint, diagnostics
failing, the controller update commanding a move beyond the precision. -/
def exDiagState : RobotState :=
  { initialRobotState with
    is_connected := true
    motion_present := true
    joint_angles := [0]
    joint_commands := [0] }

def exDiagOracle : LoopOracle :=
  { sensors := [0]
    diag_ok := false
    stop_stiff_ok := true
    update_throws := false
    commands := [1] }

theorem controllerLoop_diag_failure_witness :
    controllerLoop exDiagState [exDiagOracle] =
      some ({ (stopService ((readJoints exDiagState
                exDiagOracle.sensors).getD exDiagState)
                exDiagOracle.stop_stiff_ok).1 with
              joint_commands := exDiagOracle.commands },
        [Event.publishStiffness exDiagState.stiffness_data,
         Event.readJointsEv exDiagOracle.sensors, Event.diagPublish]
        ++ (stopService ((readJoints exDiagState
              exDiagOracle.sensors).getD exDiagState)
              exDiagOracle.stop_stiff_ok).2
        ++ [Event.managerUpdate]
        ++ (writeJoints { (stopService ((readJoints exDiagState
              exDiagOracle.sensors).getD exDiagState)
              exDiagOracle.stop_stiff_ok).1 with
              joint_commands := exDiagOracle.commands }).toList
        ++ [Event.publishJointStates]) :=
  controllerLoop_diag_failure exDiagState
    ((readJoints exDiagState exDiagOracle.sensors).getD exDiagState)
    exDiagOracle [] rfl rfl rfl rfl

/-! ## C8 -/

theorem registerHandles_getq (names : List String) (k i : Nat) :
    (registerHandles names k)[i]? = names[i]?.map (fun s => (s, k + i)) := by
  induction names generalizing k i with
  | nil => simp [registerHandles]
  | cons x xs ih =>
    cases i with
    | zero => simp [registerHandles]
    | succ j =>
      simp only [registerHandles, List.getElem?_cons_succ, ih]
      have : k + 1 + j = k + (j + 1) := by omega
      rw [this]

theorem registerHandles_length (names : List String) (k : Nat) :
    (registerHandles names k).length = names.length := by
  induction names generalizing k with
  | nil => rfl
  | cons x xs ih => simp [registerHandles, ih]

/-- C8: for every joint count `N ≥ 0` (the empty joint list included), after
controller initialization with an `N`-name joint list, each of the four buffer
arrays (measured angle, velocity, effort, command) has length exactly `N`, as
does the registered handle list, and the handle registered at index `i` binds
the `i`-th backend joint name to buffer slot `i`, preserving the backend name
order. -/
theorem initControllers_alignment (st : RobotState) (names : List String) :
    (initControllers st names true).2.1.joint_angles.length = names.length
    ∧ (initControllers st names true).2.1.joint_velocities.length = names.length
    ∧ (initControllers st names true).2.1.joint_efforts.length = names.length
    ∧ (initControllers st names true).2.1.joint_commands.length = names.length
    ∧ (initControllers st names true).2.2.length = names.length
    ∧ ∀ i, ∀ h : i < names.length,
        (initControllers st names true).2.2[i]? = some (names.get ⟨i, h⟩, i) := by
  refine ⟨by simp [initControllers], by simp [initControllers],
    by simp [initControllers], by simp [initControllers],
    by simp [initControllers, registerHandles_length], ?_⟩
  intro i h
  simp only [initControllers, if_pos, registerHandles_getq,
    List.getElem?_eq_getElem h, Nat.zero_add]
  rfl

theorem initControllers_alignment_witness :
    (initControllers initialRobotState [] true).2.1.joint_angles.length = 0
    ∧ (initControllers initialRobotState [] true).2.1.joint_velocities.length = 0
    ∧ (initControllers initialRobotState [] true).2.1.joint_efforts.length = 0
    ∧ (initControllers initialRobotState [] true).2.1.joint_commands.length = 0
    ∧ (initControllers initialRobotState [] true).2.2.length = 0
    ∧ (initControllers initialRobotState ["HeadYaw", "HeadPitch"] true).2.2[1]?
        = some ("HeadPitch", 1) :=
  ⟨(initControllers_alignment initialRobotState []).1,
   (initControllers_alignment initialRobotState []).2.1,
   (initControllers_alignment initialRobotState []).2.2.1,
   (initControllers_alignment initialRobotState []).2.2.2.1,
   (initControllers_alignment initialRobotState []).2.2.2.2.1,
   (initControllers_alignment initialRobotState
     ["HeadYaw", "HeadPitch"]).2.2.2.2.2 1 (by decide)⟩

/-! ## C9 -/

/-- C9: `setStiffness` assigns the requested level to the published stiffness
value before querying the backend: when the backend rejects the interpolation
it returns false but the published stiffness has already changed to the
requested level — the state mutation is identical to the success case, so the
operation is not atomic on error. -/
theorem setStiffness_not_atomic (st : RobotState) (lvl : ℚ) :
    (setStiffness st lvl false).1 = false
    ∧ (setStiffness st lvl false).2.1.stiffness_data = lvl
    ∧ (setStiffness st lvl false).2.1 = (setStiffness st lvl true).2.1 :=
  ⟨rfl, rfl, rfl⟩
